import Mathlib

/-!
Shallow embedding of src/random_radio_ollama.py (the RandomRadio orchestrator).

Modelling conventions:
* External collaborators (libvlc player, Ollama client, pyttsx3 engine, the
  file system) are represented by an event trace (`Ev`) plus oracle
  parameters: the Ollama service is a function `String → Option String`
  (`none` models a raised exception inside `Client.generate`), FX file
  existence is a predicate, CSV write success is a boolean, and the wall
  clock is a string argument.
* Python attributes that the source may read without ever assigning them
  are modelled with `PyAttr`: reading an `unset` attribute is an
  `AttributeError`.  `__init__` assigns `db_dsn` but never `db_conn`, and
  never assigns `mood_hint` (only `perform_command` does).
* `threading.Lock` is not reentrant; acquiring a lock that is already held
  blocks forever.  This is modelled as the error value `PyErr.deadlock`.
* Fallible code returns `Except PyErr`; a raised exception propagates as
  `Except.error` while the state mutations performed before the raise are
  kept, matching Python semantics.
* Machine-level concerns do not arise: Python integers are unbounded, so
  cursor arithmetic is `Int` with Python floor-mod (`Int.emod` agrees with
  Python `%` for a positive divisor; division by zero is modelled as the
  explicit `zeroDivisionError`).
-/

/-- Model of a pathlib.Path audio file: the display name is stem ++ suffix. -/
structure Track where
  stem : String
  suffix : String
deriving DecidableEq, Repr

/-- Python `Path.name`. -/
def Track.name (t : Track) : String := t.stem ++ t.suffix

/-- SUPPORTED_EXT from the source (a Python set literal, kept in written order). -/
def SUPPORTED_EXT : List String := [".mp3", ".flac", ".wav", ".m4a", ".aac", ".ogg"]

/-- DEFAULT_DUCK_TO from the source. -/
def DEFAULT_DUCK_TO : Int := 20

/-- DEFAULT_MUSIC_VOL from the source. -/
def DEFAULT_MUSIC_VOL : Int := 90

/-- Character-list test used to model the Python `str` prefix check. -/
def charsPre : List Char → List Char → Bool
  | [], _ => true
  | _ :: _, [] => false
  | a :: as, b :: bs => a == b && charsPre as bs

/-- Character-list substring test. -/
def charsSub (needle : List Char) : List Char → Bool
  | [] => charsPre needle []
  | b :: bs => charsPre needle (b :: bs) || charsSub needle bs

/-- Python `needle in hay` on strings (substring containment). -/
def strContains (hay needle : String) : Bool := charsSub needle.data hay.data

/-- Python str.lower, character by character. -/
def strLower (s : String) : String := ⟨s.data.map Char.toLower⟩

/-- Python str.strip: whitespace removed from both ends. -/
def strStrip (s : String) : String :=
  ⟨((s.data.dropWhile Char.isWhitespace).reverse.dropWhile Char.isWhitespace).reverse⟩

/-- Python `pathlib.Path(s).stem`: the name without its final suffix.  The
suffix is the part from the last dot, provided that dot is neither the first
nor the last character. -/
def pathStem (s : String) : String :=
  let cs := s.data
  let dots := (List.range cs.length).filter (fun i => cs.getD i ' ' == '.')
  match dots.getLast? with
  | some i => if 0 < i && i + 1 < cs.length then ⟨cs.take i⟩ else s
  | none => s

/-- Python list indexing `l[i]` with an int index: negative indices count from
the end, out-of-range indices raise IndexError (modelled as `none`). -/
def pyIndex (l : List α) (i : Int) : Option α :=
  let n : Int := l.length
  let j : Int := if i < 0 then i + n else i
  if 0 ≤ j ∧ j < n then l.get? j.toNat else none

/-- Exceptions (and the blocked-forever outcome) that the embedded code can
produce. -/
inductive PyErr where
  | attributeError (attr : String)
  | typeError
  | indexError
  | zeroDivisionError
  | deadlock
deriving DecidableEq, Repr

/-- A Python instance attribute: reading it while `unset` raises
AttributeError. -/
inductive PyAttr (α : Type) where
  | unset
  | val (a : α)
deriving DecidableEq, Repr

/-- Observable effects on the external collaborators. -/
inductive Ev where
  | playerStop
  | setMedia (track : Track)
  | setVolume (v : Int)
  | playerPlay
  | playerPause
  | askOllamaEv (prompt : String)
  | playFX (file : String)
  | speak (text : String)
  | csvWrite (row : List String)
  | dbInsert (row : List String)
  | logInfo (msg : String)
  | logWarning (msg : String)
  | logError (msg : String)
deriving DecidableEq, Repr

/-- One pyttsx3 voice. -/
structure Voice where
  name : String
  id : String
deriving DecidableEq, Repr

/-- State of the TTS wrapper: the engine voice list and the currently
selected voice id (the engine `voice` property). -/
structure TTSState where
  voices : List Voice
  voice : Option String
deriving DecidableEq, Repr

/-- TTS.set_voice from the source: empty substring returns None at once;
otherwise the first voice whose lowercased name contains the lowercased
substring is selected and its id returned. -/
def TTS.set_voice (t : TTSState) (substring : String) : Option String × TTSState :=
  if substring.isEmpty then (none, t)
  else
    match t.voices.find? (fun v => strContains (strLower v.name) (strLower substring)) with
    | some v => (some v.id, { t with voice := some v.id })
    | none => (none, t)

/-- A queue element.  `_rebuild_queue` only ever stores (album, track)
pairs, but the mood branch of `_on_track_end` inserts a bare path object,
so the element type must allow both. -/
inductive QItem where
  | pair (album : String) (track : Track)
  | bare (track : Track)
deriving DecidableEq, Repr

/-- One history record as built in `_play_current`. -/
structure HistoryEntry where
  timestamp : String
  album : String
  track : String
  commentary : String
deriving DecidableEq, Repr

/-- The CSV row written for a history entry. -/
def entryRow (e : HistoryEntry) : List String :=
  [e.timestamp, e.album, e.track, e.commentary]

/-- The canned fallback commentary returned by `ask_ollama` on failure. -/
def OLLAMA_FALLBACK : String := "Sorry, I couldn’t fetch a host line right now."

/-- ask_ollama from the source: on success the response text is stripped;
any exception is caught, a warning logged, and the fallback returned. -/
def ask_ollama (oracle : String → Option String) (prompt : String) :
    List Ev × String :=
  match oracle prompt with
  | some r => ([Ev.askOllamaEv prompt], strStrip r)
  | none =>
      ([Ev.askOllamaEv prompt,
        Ev.logWarning "Ollama failed – falling back to canned commentary"],
       OLLAMA_FALLBACK)

/-- The orchestrator state: the attributes assigned by RandomRadio. -/
structure RadioState where
  albums : List (String × List Track)
  export_csv : Bool
  duck_to : Int
  music_vol : Int
  fx : Option (String → Bool)
  db_dsn : Option String
  tts : TTSState
  queue : List QItem
  current_index : Int
  is_playing : Bool
  lockHeld : Bool
  history : List HistoryEntry
  mood_hint : PyAttr (Option String)
  db_conn : PyAttr (Option Unit)

/-- Python truthiness of the mood-hint value (None and the empty string are
falsy). -/
def truthyStr : Option String → Bool
  | none => false
  | some s => !s.isEmpty

/-- _play_fx from the source: nothing when no FX dir is configured, else the
first supported extension whose file exists is fired and the loop breaks. -/
def play_fx (fx : Option (String → Bool)) (name : String) : List Ev :=
  match fx with
  | none => []
  | some exists? =>
      match SUPPORTED_EXT.find? (fun ext => exists? (name ++ ext)) with
      | some ext => [Ev.playFX (name ++ ext)]
      | none => []

/-- The prompt string built in `_host_commentary`. -/
def hostPrompt (track_name : String) : String :=
  "DJ, what are you saying about " ++ track_name ++ "?"

/-- _host_commentary from the source, in source order: ask Ollama FIRST,
then duck the volume, then fire the FX, then dispatch speech, then restore
the volume, returning the commentary text. -/
def host_commentary (oracle : String → Option String) (st : RadioState)
    (album : String) (track_name : String) : List Ev × String :=
  let (evAsk, commentary) := ask_ollama oracle (hostPrompt track_name)
  (evAsk ++ [Ev.setVolume st.duck_to] ++ play_fx st.fx "airhorn"
     ++ [Ev.speak commentary] ++ [Ev.setVolume st.music_vol],
   commentary)

/-- _play_current from the source: empty queue only logs; otherwise the
entry at the cursor is unpacked (a bare path raises TypeError), the music is
started, the commentary protocol runs, the history entry is appended, the
CSV sink is tried with failures swallowed, and finally `if self.db_conn:`
reads an attribute that `__init__` never assigns. -/
def play_current (oracle : String → Option String) (csvOk : Bool) (now : String)
    (st : RadioState) : List Ev × RadioState × Except PyErr Unit :=
  if st.queue.isEmpty then
    ([Ev.logError "Queue is empty – nothing to play."], st, Except.ok ())
  else
    match pyIndex st.queue st.current_index with
    | none => ([], st, Except.error PyErr.indexError)
    | some (QItem.bare _) => ([], st, Except.error PyErr.typeError)
    | some (QItem.pair album track) =>
        let ev0 : List Ev :=
          [Ev.logInfo ("Now playing " ++ album ++ " → " ++ track.name),
           Ev.playerStop, Ev.setMedia track, Ev.setVolume st.music_vol,
           Ev.playerPlay]
        let evc := host_commentary oracle st album track.name
        let entry : HistoryEntry :=
          { timestamp := now, album := album, track := track.name,
            commentary := evc.2 }
        let st1 := { st with history := st.history ++ [entry] }
        let evCsv : List Ev :=
          if st.export_csv then
            if csvOk then [Ev.csvWrite (entryRow entry)]
            else [Ev.logWarning "CSV write failed"]
          else []
        match st1.db_conn with
        | PyAttr.unset =>
            (ev0 ++ evc.1 ++ evCsv, st1, Except.error (PyErr.attributeError "db_conn"))
        | PyAttr.val none => (ev0 ++ evc.1 ++ evCsv, st1, Except.ok ())
        | PyAttr.val (some _) =>
            (ev0 ++ evc.1 ++ evCsv ++ [Ev.dbInsert (entryRow entry)], st1, Except.ok ())

/-- File-level semantics of the CSV block of `_play_current` (lines
361-367): appending to the file writes exactly the one data row, with no
header logic of any kind; an exception is logged and swallowed. -/
def csv_append (file : List (List String)) (ok : Bool) (e : HistoryEntry) :
    List (List String) × List Ev :=
  if ok then (file ++ [entryRow e], [Ev.csvWrite (entryRow e)])
  else (file, [Ev.logWarning "CSV write failed"])

/-- The header row the spec expects a CSV sink to start with. -/
def CSV_HEADER : List String := ["timestamp", "album", "track", "commentary"]

/-- Python dict insertion: overwrite in place if the key exists, else append. -/
def dictInsert (d : List (String × β)) (k : String) (v : β) : List (String × β) :=
  if d.any (fun p => p.fst == k) then
    d.map (fun p => if p.fst == k then (k, v) else p)
  else d ++ [(k, v)]

/-- title_map from the source: dict from lowercased track stem to the
(album, track) pair, built album by album in insertion order. -/
def title_map (albums : List (String × List Track)) :
    List (String × (String × Track)) :=
  albums.foldl
    (fun d p => p.snd.foldl (fun d t => dictInsert d (strLower t.stem) (p.fst, t)) d)
    []

/-- The f-string prompt built in `_choose_next_by_mood`. -/
def jsonPrompt (album : String) (track_name : String) : String :=
  "\x7b\"album\":\"" ++ album ++ "\",\"track\":\"" ++ track_name ++ "\"\x7d"

/-- _choose_next_by_mood, read with the evident parse of its malformed
generator expression.  The generator iterates `title_map.items()`, so `a`
ranges over lowercased STEM keys and `p` over (album, track) PAIRS; the
condition `a == album` compares a stem key against the album name, and on
the first entry where it holds the short-circuited `p.stem` is evaluated on
a tuple, raising AttributeError.  If no key equals the album name the
`next` default (None, None) is used and None is returned.  `ask_ollama`
never raises, so the try/except around it is dead code. -/
def choose_next_by_mood (oracle : String → Option String)
    (albums : List (String × List Track)) (current : String × Track) :
    List Ev × Except PyErr (Option Track) :=
  let (evAsk, response) := ask_ollama oracle (jsonPrompt current.fst current.snd.name)
  let ans := strLower (strStrip response)
  if ans.isEmpty then (evAsk, Except.ok none)
  else
    let _stem := pathStem ans
    match (title_map albums).find? (fun q => q.fst == current.fst) with
    | some _ => (evAsk, Except.error (PyErr.attributeError "stem"))
    | none => (evAsk, Except.ok none)

/-- A `with self.lock:` block over a non-reentrant threading.Lock: acquiring
a held lock blocks forever (deadlock); otherwise the body runs with the
lock held and the lock is released on exit, normal or exceptional. -/
def withLock (st : RadioState)
    (body : RadioState → List Ev × RadioState × Except PyErr α) :
    List Ev × RadioState × Except PyErr α :=
  if st.lockHeld then ([], st, Except.error PyErr.deadlock)
  else
    let r := body { st with lockHeld := true }
    match r.2.2 with
    | Except.error PyErr.deadlock => r
    | _ => (r.1, { r.2.1 with lockHeld := false }, r.2.2)

/-- _on_track_end from the source: under the lock, advance the cursor
modulo the queue length, read `self.mood_hint` (AttributeError when never
assigned), run the mood lookup when the hint is truthy (inserting a bare
path at the front on a match), then play the current entry. -/
def on_track_end (oracle : String → Option String) (csvOk : Bool) (now : String)
    (st : RadioState) : List Ev × RadioState × Except PyErr Unit :=
  withLock st (fun st0 =>
    if st0.queue.length = 0 then ([], st0, Except.error PyErr.zeroDivisionError)
    else
      let st1 := { st0 with
        current_index := (st0.current_index + 1) % (st0.queue.length : Int) }
      match st1.mood_hint with
      | PyAttr.unset => ([], st1, Except.error (PyErr.attributeError "mood_hint"))
      | PyAttr.val mh =>
          if truthyStr mh then
            match pyIndex st1.queue st1.current_index with
            | none => ([], st1, Except.error PyErr.indexError)
            | some (QItem.bare _) => ([], st1, Except.error PyErr.typeError)
            | some (QItem.pair a t) =>
                let chosen := choose_next_by_mood oracle st1.albums (a, t)
                match chosen.2 with
                | Except.error e => (chosen.1, st1, Except.error e)
                | Except.ok none =>
                    let r := play_current oracle csvOk now st1
                    (chosen.1 ++ r.1, r.2.1, r.2.2)
                | Except.ok (some p) =>
                    let st2 := { st1 with
                      queue := QItem.bare p :: st1.queue, current_index := 0 }
                    let r := play_current oracle csvOk now st2
                    (chosen.1 ++ r.1, r.2.1, r.2.2)
          else
            play_current oracle csvOk now st1)

/-- skip from the source: take the lock, stop the player, then call
`_on_track_end` directly, which tries to take the same lock again. -/
def radio_skip (oracle : String → Option String) (csvOk : Bool) (now : String)
    (st : RadioState) : List Ev × RadioState × Except PyErr Unit :=
  withLock st (fun st1 =>
    let r := on_track_end oracle csvOk now st1
    (Ev.playerStop :: r.1, r.2.1, r.2.2))

/-- previous from the source: under the lock, floor the cursor at 0, stop
the player and replay the current entry. -/
def radio_previous (oracle : String → Option String) (csvOk : Bool) (now : String)
    (st : RadioState) : List Ev × RadioState × Except PyErr Unit :=
  withLock st (fun st1 =>
    let st2 := { st1 with current_index := max 0 (st1.current_index - 1) }
    let r := play_current oracle csvOk now st2
    (Ev.playerStop :: r.1, r.2.1, r.2.2))

/-- pause from the source: under the lock, pause the player and clear the
playing flag. -/
def radio_pause (st : RadioState) : List Ev × RadioState × Except PyErr Unit :=
  withLock st (fun st1 =>
    ([Ev.playerPause], { st1 with is_playing := false }, Except.ok ()))

/-- play from the source: under the lock, start the player, set the volume
to the music level, and set the playing flag. -/
def radio_play (st : RadioState) : List Ev × RadioState × Except PyErr Unit :=
  withLock st (fun st1 =>
    ([Ev.playerPlay, Ev.setVolume st1.music_vol],
     { st1 with is_playing := true }, Except.ok ()))

/-- Remove and return the element at an index, keeping the rest in order. -/
def pickOut : List α → Nat → Option (α × List α)
  | [], _ => none
  | x :: xs, 0 => some (x, xs)
  | x :: xs, n + 1 => (pickOut xs n).map (fun q => (q.fst, x :: q.snd))

/-- Model of stdlib random.shuffle: the process entropy source is supplied
as a list of draws, each taken modulo the number of remaining elements; the
result is the drawn elements in draw order followed by whatever remains
when the draws run out. -/
def pshuffle : List α → List Nat → List α
  | l, [] => l
  | l, r :: rs =>
      match pickOut l (r % l.length) with
      | none => l
      | some (x, rest) => x :: pshuffle rest rs

/-- The list comprehension of `_rebuild_queue`: one (album, track) pair per
track of the index, album by album. -/
def index_pairs (albums : List (String × List Track)) : List QItem :=
  albums.flatMap (fun p => p.snd.map (fun t => QItem.pair p.fst t))

/-- _rebuild_queue from the source: build all pairs, then shuffle in place. -/
def rebuild_queue (albums : List (String × List Track)) (rands : List Nat) :
    List QItem :=
  pshuffle (index_pairs albums) rands

/-- RandomRadio.__init__ followed by `_rebuild_queue`: note that
`mood_hint` and `db_conn` are never assigned. -/
def radio_init (albums : List (String × List Track)) (export_csv : Bool)
    (duck_to music_vol : Int) (fx : Option (String → Bool))
    (db_dsn : Option String) (tts : TTSState) (rands : List Nat) : RadioState :=
  { albums := albums
    export_csv := export_csv
    duck_to := duck_to
    music_vol := music_vol
    fx := fx
    db_dsn := db_dsn
    tts := tts
    queue := rebuild_queue albums rands
    current_index := 0
    is_playing := false
    lockHeld := false
    history := []
    mood_hint := PyAttr.unset
    db_conn := PyAttr.unset }

/-- Predicate singling out CSV data-row writes in a trace. -/
def isCsvWrite : Ev → Bool
  | Ev.csvWrite _ => true
  | _ => false

/-- Events the DB tail of `_play_current` produces, by db_conn attribute
state. -/
def dbTailEv : PyAttr (Option Unit) → List String → List Ev
  | PyAttr.val (some _), row => [Ev.dbInsert row]
  | _, _ => []

/-- Outcome of the `if self.db_conn:` line, by db_conn attribute state. -/
def dbRes : PyAttr (Option Unit) → Except PyErr Unit
  | PyAttr.unset => Except.error (PyErr.attributeError "db_conn")
  | PyAttr.val _ => Except.ok ()

theorem charsSub_nil : ∀ cs : List Char, charsSub [] cs = true
  | [] => rfl
  | _ :: _ => rfl

theorem pickOut_perm {α : Type} :
    ∀ (l : List α) (n : Nat) (x : α) (rest : List α),
      pickOut l n = some (x, rest) → l.Perm (x :: rest)
  | [], n, x, rest => by simp [pickOut]
  | y :: ys, 0, x, rest => by
      intro h
      simp [pickOut] at h
      rw [h.1, h.2]
  | y :: ys, n + 1, x, rest => by
      intro h
      cases hp : pickOut ys n with
      | none => simp [pickOut, hp] at h
      | some q =>
          obtain ⟨x2, rest2⟩ := q
          simp [pickOut, hp] at h
          obtain ⟨hx, hr⟩ := h
          subst hx
          subst hr
          exact ((pickOut_perm ys n x2 rest2 hp).cons y).trans
            (List.Perm.swap x2 y rest2)

theorem pshuffle_perm {α : Type} : ∀ (rs : List Nat) (l : List α), (pshuffle l rs).Perm l
  | [], l => List.Perm.refl l
  | r :: rs, l => by
      unfold pshuffle
      cases hp : pickOut l (r % l.length) with
      | none => exact List.Perm.refl l
      | some q =>
          obtain ⟨x, rest⟩ := q
          exact ((pshuffle_perm rs rest).cons x).trans
            (pickOut_perm l (r % l.length) x rest hp).symm

theorem play_fx_no_csv (fx : Option (String → Bool)) (name : String) :
    (play_fx fx name).filter isCsvWrite = [] := by
  unfold play_fx
  split
  · rfl
  · split <;> rfl

theorem ask_ollama_no_csv (oracle : String → Option String) (prompt : String) :
    (ask_ollama oracle prompt).1.filter isCsvWrite = [] := by
  unfold ask_ollama
  cases oracle prompt <;> rfl

theorem host_commentary_no_csv (oracle : String → Option String) (st : RadioState)
    (album track_name : String) :
    (host_commentary oracle st album track_name).1.filter isCsvWrite = [] := by
  unfold host_commentary
  simp [List.filter_append, ask_ollama_no_csv, play_fx_no_csv, isCsvWrite]

theorem dbTailEv_no_csv (d : PyAttr (Option Unit)) (row : List String) :
    (dbTailEv d row).filter isCsvWrite = [] := by
  unfold dbTailEv
  split <;> rfl

/-- Master equation for `_play_current` at a valid (album, track) cursor:
the full trace, the state change (exactly one history append), and the
outcome of the dangling db_conn attribute read. -/
theorem play_current_spec (oracle : String → Option String) (csvOk : Bool)
    (now : String) (st : RadioState) (a : String) (t : Track)
    (hne : st.queue.isEmpty = false)
    (hidx : pyIndex st.queue st.current_index = some (QItem.pair a t)) :
    play_current oracle csvOk now st =
      ([Ev.logInfo ("Now playing " ++ a ++ " → " ++ t.name), Ev.playerStop,
        Ev.setMedia t, Ev.setVolume st.music_vol, Ev.playerPlay]
         ++ (host_commentary oracle st a t.name).1
         ++ (if st.export_csv then
               if csvOk then
                 [Ev.csvWrite [now, a, t.name, (host_commentary oracle st a t.name).2]]
               else [Ev.logWarning "CSV write failed"]
             else [])
         ++ dbTailEv st.db_conn [now, a, t.name, (host_commentary oracle st a t.name).2],
       { st with history := st.history ++
          [{ timestamp := now, album := a, track := t.name,
             commentary := (host_commentary oracle st a t.name).2 }] },
       dbRes st.db_conn) := by
  unfold play_current
  rw [hne]
  simp only [Bool.false_eq_true, if_false, hidx]
  cases hdb : st.db_conn with
  | unset => simp [entryRow, dbTailEv, dbRes, hdb]
  | val v => cases v <;> simp [entryRow, dbTailEv, dbRes, hdb]

theorem play_current_cursor (oracle : String → Option String) (csvOk : Bool)
    (now : String) (st : RadioState) :
    (play_current oracle csvOk now st).2.1.current_index = st.current_index ∧
    (play_current oracle csvOk now st).2.1.queue = st.queue := by
  unfold play_current
  split
  · exact ⟨rfl, rfl⟩
  · split
    · exact ⟨rfl, rfl⟩
    · exact ⟨rfl, rfl⟩
    · dsimp only
      split <;> exact ⟨rfl, rfl⟩

/-- Commentary source that always succeeds with a fixed line. -/
def okOracle : String → Option String := fun _ => some "Great pick from the vault!"

/-- Commentary source that always fails (the Ollama call raises). -/
def failOracle : String → Option String := fun _ => none

/-- Commentary source whose answer names an existing track. -/
def helloOracle : String → Option String := fun _ => some "Hello"

/-- A demo track file Hello.mp3. -/
def tDemo : Track := { stem := "Hello", suffix := ".mp3" }

/-- A TTS engine with no voices. -/
def ttsDemo : TTSState := { voices := [], voice := none }

/-- A freshly constructed orchestrator over a one-track library, no CSV
sink, no FX directory, default volumes, no shuffle draws. -/
def initDemo : RadioState :=
  radio_init [("Rock", [tDemo])] false DEFAULT_DUCK_TO DEFAULT_MUSIC_VOL none none ttsDemo []

/-- The fresh orchestrator with an FX directory in which every file exists. -/
def fxDemoSt : RadioState := { initDemo with fx := some (fun _ => true) }

/-- The fresh orchestrator after the user set a mood hint. -/
def moodSt : RadioState := { initDemo with mood_hint := PyAttr.val (some "chill") }

/-- C1: the claim says no recoverable condition may propagate an unhandled
failure out of the Orchestrator.  The code violates it: on a freshly
constructed orchestrator with a non-empty queue, begin-playing itself ends
in an uncaught AttributeError, because `_play_current` reads `self.db_conn`
and `__init__` only ever assigns `db_dsn`. -/
theorem C1_begin_playing_raises_attribute_error :
    (play_current okOracle true "2024-01-01 00:00:00" initDemo).2.2
      = Except.error (PyErr.attributeError "db_conn") := by rfl

/-- C2 counterexample: the claim orders the commentary protocol as duck,
FX, commentary call, speak, restore.  On a concrete state the computed
trace starts with the Commentary Source call, not with the duck, so the
claimed order is false. -/
theorem C2_commentary_order_counterexample :
    (host_commentary okOracle fxDemoSt "Rock" "Hello.mp3").1 =
      [Ev.askOllamaEv (hostPrompt "Hello.mp3"), Ev.setVolume 20,
       Ev.playFX "airhorn.mp3", Ev.speak "Great pick from the vault!",
       Ev.setVolume 90] ∧
    (host_commentary okOracle fxDemoSt "Rock" "Hello.mp3").1.head? ≠
      some (Ev.setVolume fxDemoSt.duck_to) := by
  constructor
  · rfl
  · decide

/-- C2 (amended): for every invocation — the Commentary Source succeeding
or failing — the commentary protocol performs its effects in this order:
first call the Commentary Source (on failure a warning is logged and the
fallback string substituted), then set volume to the duck level, then fire
the FX player, then dispatch the resulting text to Voice Output, then
restore volume to the music level. -/
theorem C2_commentary_protocol_order (oracle : String → Option String)
    (st : RadioState) (album track_name : String) :
    (∀ c : String, oracle (hostPrompt track_name) = some c →
      host_commentary oracle st album track_name =
        ([Ev.askOllamaEv (hostPrompt track_name), Ev.setVolume st.duck_to]
           ++ play_fx st.fx "airhorn"
           ++ [Ev.speak (strStrip c), Ev.setVolume st.music_vol],
         strStrip c)) ∧
    (oracle (hostPrompt track_name) = none →
      host_commentary oracle st album track_name =
        ([Ev.askOllamaEv (hostPrompt track_name),
          Ev.logWarning "Ollama failed – falling back to canned commentary",
          Ev.setVolume st.duck_to]
           ++ play_fx st.fx "airhorn"
           ++ [Ev.speak OLLAMA_FALLBACK, Ev.setVolume st.music_vol],
         OLLAMA_FALLBACK)) := by
  refine ⟨fun c h => ?_, fun h => ?_⟩ <;> simp [host_commentary, ask_ollama, h]

theorem C2_commentary_protocol_order_witness :
    host_commentary okOracle fxDemoSt "Rock" "Hello.mp3" =
      ([Ev.askOllamaEv (hostPrompt "Hello.mp3"), Ev.setVolume fxDemoSt.duck_to]
         ++ play_fx fxDemoSt.fx "airhorn"
         ++ [Ev.speak (strStrip "Great pick from the vault!"),
             Ev.setVolume fxDemoSt.music_vol],
       strStrip "Great pick from the vault!") ∧
    host_commentary failOracle fxDemoSt "Rock" "Hello.mp3" =
      ([Ev.askOllamaEv (hostPrompt "Hello.mp3"),
        Ev.logWarning "Ollama failed – falling back to canned commentary",
        Ev.setVolume fxDemoSt.duck_to]
         ++ play_fx fxDemoSt.fx "airhorn"
         ++ [Ev.speak OLLAMA_FALLBACK, Ev.setVolume fxDemoSt.music_vol],
       OLLAMA_FALLBACK) :=
  ⟨(C2_commentary_protocol_order okOracle fxDemoSt "Rock" "Hello.mp3").1
     "Great pick from the vault!" rfl,
   (C2_commentary_protocol_order failOracle fxDemoSt "Rock" "Hello.mp3").2 rfl⟩

/-- C3: the claim wants N skips to leave cursor = N mod L and history
length N + 1.  The code cannot perform even one skip: `skip` takes the
non-reentrant `threading.Lock` and then calls `_on_track_end`, whose own
`with self.lock:` blocks forever on the already-held lock. -/
theorem C3_skip_self_deadlocks (oracle : String → Option String) (csvOk : Bool)
    (now : String) (st : RadioState) (h : st.lockHeld = false) :
    (radio_skip oracle csvOk now st).2.2 = Except.error PyErr.deadlock := by
  simp [radio_skip, on_track_end, withLock, h]

theorem C3_skip_self_deadlocks_witness :
    initDemo.lockHeld = false ∧
    (radio_skip okOracle true "ts" initDemo).2.2 = Except.error PyErr.deadlock :=
  ⟨rfl, C3_skip_self_deadlocks okOracle true "ts" initDemo rfl⟩

/-- C4: the claim says the mood-directed lookup searches the whole library
for a track whose name matches the answer case-insensitively and inserts
it at the front of the queue.  Concretely: the library holds Hello.mp3 in
album Rock, the mood hint is set, and the Commentary Source answers
"Hello" — a case-insensitive match — yet the lookup returns None (its
generator compares title_map STEM keys against the album name) and the
track-end handler inserts nothing: the queue is unchanged. -/
theorem C4_mood_lookup_never_matches :
    pathStem (strLower (strStrip "Hello")) = strLower tDemo.stem ∧
    (choose_next_by_mood helloOracle moodSt.albums ("Rock", tDemo)).2
       = Except.ok none ∧
    (on_track_end helloOracle true "ts" moodSt).2.1.queue = moodSt.queue := by
  refine ⟨?_, ?_, ?_⟩ <;> rfl

/-- C5: when the Commentary Source call fails, begin-playing still appends
a HistoryEntry whose commentary field is the canned fallback string. -/
theorem C5_fallback_history_append (oracle : String → Option String) (csvOk : Bool)
    (now : String) (st : RadioState) (a : String) (t : Track)
    (hfail : oracle (hostPrompt t.name) = none)
    (hne : st.queue.isEmpty = false)
    (hidx : pyIndex st.queue st.current_index = some (QItem.pair a t)) :
    (play_current oracle csvOk now st).2.1.history =
      st.history ++ [{ timestamp := now, album := a, track := t.name,
                       commentary := OLLAMA_FALLBACK }] := by
  rw [play_current_spec oracle csvOk now st a t hne hidx]
  simp [host_commentary, ask_ollama, hfail]

theorem C5_fallback_history_append_witness :
    failOracle (hostPrompt tDemo.name) = none ∧
    initDemo.queue.isEmpty = false ∧
    pyIndex initDemo.queue initDemo.current_index = some (QItem.pair "Rock" tDemo) ∧
    (play_current failOracle false "ts" initDemo).2.1.history =
      initDemo.history ++ [{ timestamp := "ts", album := "Rock",
                             track := tDemo.name, commentary := OLLAMA_FALLBACK }] :=
  ⟨rfl, rfl, by decide,
   C5_fallback_history_append failOracle false "ts" initDemo "Rock" tDemo rfl rfl
     (by decide)⟩

/-- C6: for every library index and every draw of the entropy source, the
built queue holds exactly one (album, track) entry per track of the index
and no extras: the multisets coincide. -/
theorem C6_queue_multiset_eq (albums : List (String × List Track))
    (rands : List Nat) :
    (rebuild_queue albums rands : Multiset QItem)
      = (index_pairs albums : Multiset QItem) :=
  Multiset.coe_eq_coe.mpr (pshuffle_perm rands (index_pairs albums))

/-- C7: previous computes max(0, cursor - 1): the new cursor equals that
value, is never negative, and stays 0 when the cursor was 0. -/
theorem C7_previous_floor (oracle : String → Option String) (csvOk : Bool)
    (now : String) (st : RadioState) (h : st.lockHeld = false) :
    (radio_previous oracle csvOk now st).2.1.current_index
        = max 0 (st.current_index - 1) ∧
    0 ≤ (radio_previous oracle csvOk now st).2.1.current_index ∧
    (st.current_index = 0 →
      (radio_previous oracle csvOk now st).2.1.current_index = 0) := by
  have key : (radio_previous oracle csvOk now st).2.1.current_index
      = max 0 (st.current_index - 1) := by
    unfold radio_previous withLock
    simp only [h, Bool.false_eq_true, if_false]
    split
    · exact (play_current_cursor oracle csvOk now _).1
    · exact (play_current_cursor oracle csvOk now _).1
  refine ⟨key, ?_, ?_⟩
  · rw [key]; exact le_max_left 0 _
  · intro h0; rw [key, h0]; rfl

theorem C7_previous_floor_witness :
    initDemo.lockHeld = false ∧
    (radio_previous okOracle true "ts" initDemo).2.1.current_index
        = max 0 (initDemo.current_index - 1) ∧
    0 ≤ (radio_previous okOracle true "ts" initDemo).2.1.current_index ∧
    (initDemo.current_index = 0 →
      (radio_previous okOracle true "ts" initDemo).2.1.current_index = 0) :=
  ⟨rfl, C7_previous_floor okOracle true "ts" initDemo rfl⟩

/-- C8 counterexample: the claim says pause/play only toggle the player
paused state and the playing flag; but play() also writes the player
volume, so its trace is not the bare player-start event. -/
theorem C8_play_sets_volume_counterexample :
    (radio_play initDemo).1 = [Ev.playerPlay, Ev.setVolume 90] ∧
    (radio_play initDemo).1 ≠ [Ev.playerPlay] := by
  exact ⟨rfl, by decide⟩

/-- C8 (amended): pause() and play() leave the cursor, the queue, the
history and the mood hint unchanged and update the playing flag; pause
only pauses the player, while play additionally restores the player volume
to the music level. -/
theorem C8_pause_play_frame (st : RadioState) (h : st.lockHeld = false) :
    ((radio_pause st).1 = [Ev.playerPause] ∧
     (radio_pause st).2.1.queue = st.queue ∧
     (radio_pause st).2.1.current_index = st.current_index ∧
     (radio_pause st).2.1.history = st.history ∧
     (radio_pause st).2.1.mood_hint = st.mood_hint ∧
     (radio_pause st).2.1.is_playing = false) ∧
    ((radio_play st).1 = [Ev.playerPlay, Ev.setVolume st.music_vol] ∧
     (radio_play st).2.1.queue = st.queue ∧
     (radio_play st).2.1.current_index = st.current_index ∧
     (radio_play st).2.1.history = st.history ∧
     (radio_play st).2.1.mood_hint = st.mood_hint ∧
     (radio_play st).2.1.is_playing = true) := by
  simp [radio_pause, radio_play, withLock, h]

theorem C8_pause_play_frame_witness :
    initDemo.lockHeld = false ∧
    (((radio_pause initDemo).1 = [Ev.playerPause] ∧
      (radio_pause initDemo).2.1.queue = initDemo.queue ∧
      (radio_pause initDemo).2.1.current_index = initDemo.current_index ∧
      (radio_pause initDemo).2.1.history = initDemo.history ∧
      (radio_pause initDemo).2.1.mood_hint = initDemo.mood_hint ∧
      (radio_pause initDemo).2.1.is_playing = false) ∧
     ((radio_play initDemo).1 = [Ev.playerPlay, Ev.setVolume initDemo.music_vol] ∧
      (radio_play initDemo).2.1.queue = initDemo.queue ∧
      (radio_play initDemo).2.1.current_index = initDemo.current_index ∧
      (radio_play initDemo).2.1.history = initDemo.history ∧
      (radio_play initDemo).2.1.mood_hint = initDemo.mood_hint ∧
      (radio_play initDemo).2.1.is_playing = true)) :=
  ⟨rfl, C8_pause_play_frame initDemo rfl⟩

/-- A history entry used in the CSV counterexample. -/
def demoEntry : HistoryEntry :=
  { timestamp := "2024-01-01 00:00:00", album := "Rock", track := "Hello.mp3",
    commentary := "a classic" }

/-- C9 counterexample: the claim says a header row is written when the
file is empty or new; appending to the empty file yields only the one data
row, whose first row is not the header. -/
theorem C9_no_header_counterexample :
    (csv_append [] true demoEntry).1 = [entryRow demoEntry] ∧
    (csv_append [] true demoEntry).1.head? ≠ some CSV_HEADER := by
  exact ⟨rfl, by decide⟩

/-- C9 (amended): each history entry forwarded to a configured CSV sink
appends exactly one data row (timestamp, album, track, commentary) and
never a header row; a write failure is logged and swallowed, and in either
case the in-memory history append is unaffected. -/
theorem C9_csv_sink (oracle : String → Option String) (csvOk : Bool)
    (now : String) (st : RadioState) (a : String) (t : Track)
    (hcsv : st.export_csv = true)
    (hne : st.queue.isEmpty = false)
    (hidx : pyIndex st.queue st.current_index = some (QItem.pair a t)) :
    (play_current oracle csvOk now st).2.1.history =
      st.history ++ [{ timestamp := now, album := a, track := t.name,
                       commentary := (host_commentary oracle st a t.name).2 }] ∧
    (csvOk = true →
      (play_current oracle csvOk now st).1.filter isCsvWrite =
        [Ev.csvWrite [now, a, t.name, (host_commentary oracle st a t.name).2]]) ∧
    (csvOk = false →
      (play_current oracle csvOk now st).1.filter isCsvWrite = [] ∧
      Ev.logWarning "CSV write failed" ∈ (play_current oracle csvOk now st).1) := by
  rw [play_current_spec oracle csvOk now st a t hne hidx]
  refine ⟨rfl, ?_, ?_⟩
  · intro hok
    simp [hok, hcsv, List.filter_append, host_commentary_no_csv,
      dbTailEv_no_csv, isCsvWrite]
  · intro hbad
    refine ⟨?_, ?_⟩
    · simp [hbad, hcsv, List.filter_append, host_commentary_no_csv,
        dbTailEv_no_csv, isCsvWrite]
    · simp [hbad, hcsv, List.mem_append]

theorem C9_csv_sink_witness :
    { initDemo with export_csv := true }.export_csv = true ∧
    { initDemo with export_csv := true }.queue.isEmpty = false ∧
    pyIndex { initDemo with export_csv := true }.queue
        { initDemo with export_csv := true }.current_index
      = some (QItem.pair "Rock" tDemo) ∧
    ((play_current okOracle false "ts" { initDemo with export_csv := true }).2.1.history =
       { initDemo with export_csv := true }.history ++
         [{ timestamp := "ts", album := "Rock", track := tDemo.name,
            commentary := (host_commentary okOracle
              { initDemo with export_csv := true } "Rock" tDemo.name).2 }] ∧
     (false = true →
       (play_current okOracle false "ts" { initDemo with export_csv := true }).1.filter
           isCsvWrite =
         [Ev.csvWrite ["ts", "Rock", tDemo.name, (host_commentary okOracle
            { initDemo with export_csv := true } "Rock" tDemo.name).2]]) ∧
     (false = false →
       (play_current okOracle false "ts" { initDemo with export_csv := true }).1.filter
           isCsvWrite = [] ∧
       Ev.logWarning "CSV write failed" ∈
         (play_current okOracle false "ts" { initDemo with export_csv := true }).1)) :=
  ⟨rfl, rfl, by decide,
   C9_csv_sink okOracle false "ts" { initDemo with export_csv := true } "Rock" tDemo
     rfl rfl (by decide)⟩

/-- C10: for every voice list, set_voice with the empty string returns the
none-found result and leaves the engine state (so the selected voice)
unchanged, even though the empty string is a substring of every name. -/
theorem C10_set_voice_empty (t : TTSState) :
    TTS.set_voice t "" = (none, t) ∧ ∀ s : String, strContains s "" = true := by
  exact ⟨rfl, fun s => charsSub_nil s.data⟩
